import Mathlib

/-!
Shallow embedding of `custom_components/openmediavault/omv_api.py`
(class `OpenMediaVaultAPI`) and proofs about its session lifecycle.

Modelling conventions:
* JSON values are `JVal`; Python `None` and JSON `null` are both `JVal.null`.
* Each HTTP POST consumes the head of an oracle list of `TransportResult`s,
  which describes what the transport layer does on that exchange
  (raise `requests.exceptions.ConnectionError`, raise some other exception,
  return a body that is not valid JSON, or return a parsed JSON body).
* The mutex (`threading.Lock`, non-reentrant) is a counter `lockCount`.
  Acquiring it while it is held by the same (single) caller blocks forever;
  that outcome is `Res.deadlock`.  The `reentrant` flag switches to a
  counting (reentrant) lock, used only to analyse what the code would do if
  the lock were reentrant; the faithful model is `reentrant = false`.
* Fallible Python expressions (`d[k]` raising `KeyError`/`TypeError`,
  `response.json()` raising a decode error) are `Except PyExc`; an uncaught
  exception surfaces as `Res.exc`.
* Every attempted POST is recorded in `sent` (the request body handed to the
  transport), and every log statement in `log`, so that call counts and
  logging rates are observable in theorems.
-/

namespace OMV

/-- JSON value as produced by Python `json.loads` (numbers restricted to
integers, which is all this API uses). -/
inductive JVal where
  | null : JVal
  | bool : Bool → JVal
  | num : Int → JVal
  | str : String → JVal
  | obj : List (String × JVal) → JVal
  | arr : List JVal → JVal
deriving Repr

/-- Python truthiness (`bool(v)`) of a JSON value. -/
def truthy : JVal → Bool
  | .null => false
  | .bool b => b
  | .num n => n != 0
  | .str s => s != ""
  | .obj fs => !fs.isEmpty
  | .arr xs => !xs.isEmpty

/-- Python `v is None` for a decoded JSON value. -/
def JVal.isNull : JVal → Bool
  | .null => true
  | _ => false

/-- Python `v == n` for an integer literal `n` (Python booleans compare equal
to 0 and 1). -/
def JVal.eqNum : JVal → Int → Bool
  | .num m, n => m == n
  | .bool b, n => (if b then (1 : Int) else 0) == n
  | _, _ => false

/-- Python `"%s" % v` rendering of a decoded JSON value.  Only the `str`
case is ever compared against a literal by the code under study; the
renderings of the other constructors are unobservable placeholders. -/
def pyStr : JVal → String
  | .null => "None"
  | .bool true => "True"
  | .bool false => "False"
  | .num n => toString n
  | .str s => s
  | .obj _ => "dict"
  | .arr _ => "list"

/-- Exceptions the embedded code can raise. -/
inductive PyExc where
  | typeError : PyExc
  | keyError : PyExc
  | valueError : PyExc
  | otherError : PyExc
  | recursionError : PyExc
deriving Repr, DecidableEq

/-- Python subscription `v[k]` with a string key: a dict yields the value or
raises `KeyError`; any non-dict (including `None`) raises `TypeError`. -/
def pyIndex : JVal → String → Except PyExc JVal
  | .obj fs, k =>
    match fs.lookup k with
    | some v => .ok v
    | none => .error .keyError
  | _, _ => .error .typeError

/-- Outcome of running a method: normal return, uncaught exception, or
blocking forever on acquiring the already-held non-reentrant lock. -/
inductive Res (α : Type) where
  | ok : α → Res α
  | exc : PyExc → Res α
  | deadlock : Res α
deriving Repr

/-- Severity of a log statement. -/
inductive LogLevel where
  | err : LogLevel
  | warn : LogLevel
  | debug : LogLevel
deriving Repr, DecidableEq

/-- One log statement, identified by severity and a tag naming the source
log line. -/
structure LogEntry where
  level : LogLevel
  tag : String
deriving Repr, DecidableEq

/-- Body of one attempted POST to `<resource>` as built by the code
(`json.dumps({service, method, params[, options]})`); the login request has
no `options` key. -/
structure Request where
  service : String
  method : String
  params : JVal
  options : Option JVal
deriving Repr

/-- What the transport layer does on one POST. -/
inductive TransportResult where
  | raiseConn : String → TransportResult
  | raiseOther : TransportResult
  | badBody : TransportResult
  | body : JVal → TransportResult
deriving Repr

/-- Consume the next transport result from the oracle.  An exhausted oracle
behaves as an unexpected transport exception; theorems always supply enough
results for the exchanges they exercise. -/
def takeTr : List TransportResult → TransportResult × List TransportResult
  | [] => (.raiseOther, [])
  | t :: ts => (t, ts)

/-- The mutable state of one `OpenMediaVaultAPI` instance (`__init__`,
lines 20-40 of `omv_api.py`), plus the observation-only `log` and `sent`
histories. -/
structure ApiState where
  host : String
  useSsl : Bool
  username : String
  password : String
  protocol : String
  resource : String
  connected : Bool
  reconnected : Bool
  connectionEpoch : Int
  connectionRetrySec : Int
  error : Option String
  connectionErrorReported : Bool
  hasConnection : Bool
  lockCount : Nat
  accountingLastRun : Option Unit
  log : List LogEntry
  sent : List Request
deriving Repr

/-- `__init__(host, username, password, use_ssl)`. -/
def initState (host username password : String) (useSsl : Bool) : ApiState :=
  let protocol := if useSsl then "https" else "http"
  { host := host
    useSsl := useSsl
    username := username
    password := password
    protocol := protocol
    resource := protocol ++ "://" ++ host ++ "/rpc.php"
    connected := false
    reconnected := false
    connectionEpoch := 0
    connectionRetrySec := 58
    error := none
    connectionErrorReported := false
    hasConnection := false
    lockCount := 0
    accountingLastRun := none
    log := []
    sent := [] }

/-- Append one log statement. -/
def logAdd (s : ApiState) (lv : LogLevel) (tag : String) : ApiState :=
  { s with log := s.log ++ [⟨lv, tag⟩] }

/-- Release `self.lock`. -/
def release (s : ApiState) : ApiState :=
  { s with lockCount := s.lockCount - 1 }

/-- `error_to_strings(error="")`, lines 162-166. -/
def error_to_strings (s : ApiState) (e : String) : ApiState :=
  let s := { s with error := some "cannot_connect" }
  if e = "Incorrect username or password" then { s with error := some "wrong_login" }
  else s

/-- `has_reconnected()`, lines 45-51. -/
def has_reconnected (s : ApiState) : ApiState × Bool :=
  if s.reconnected then ({ s with reconnected := false }, true)
  else (s, false)

/-- `disconnect(location="unknown", error=None)`, lines 70-88. -/
def disconnect (location : String) (error : Option String) (s : ApiState) : ApiState :=
  let errMsg :=
    match error with
    | none => "unknown"
    | some e => if e = "" then "unknown" else e
  let s :=
    if s.connectionErrorReported = false then
      let s :=
        if location = "unknown" then logAdd s .err "connection closed"
        else logAdd s .err ("error while " ++ location ++ " : " ++ errMsg)
      { s with connectionErrorReported := true }
    else s
  { s with reconnected := false, connected := false, hasConnection := false,
           connectionEpoch := 0 }

/-- `connect()`, lines 93-157, translated statement by statement.  `now` is
the value of `time()`; the POST of the login body consumes the head of the
oracle.  An exception escaping the `try` (anything other than the caught
`requests.exceptions.ConnectionError`) leaves the lock held, exactly as in
the source, which has no `finally`.  The source evaluates the pure
expression `data["error"]["message"]` up to twice (lines 121 and 125); the
model evaluates it once, which is observationally identical because both
evaluations return, or raise, the same value, and the second runs exactly
when the first did not raise. -/
def connect (reentrant : Bool) (now : Int) (s : ApiState) (trs : List TransportResult) :
    ApiState × List TransportResult × Res Bool :=
  let s := { s with error := some "", connected := false, connectionEpoch := now,
                    hasConnection := true }
  if s.lockCount = 0 ∨ reentrant then
    let s := { s with lockCount := s.lockCount + 1 }
    let s := { s with sent := s.sent ++
      [⟨"session", "login",
        .obj [("username", .str s.username), ("password", .str s.password)], none⟩] }
    let (tr, trs) := takeTr trs
    match tr with
    | .raiseConn msg =>
      let s := logAdd s .err "connection error"
      let s := error_to_strings s msg
      let s := release { s with hasConnection := false }
      (s, trs, .ok false)
    | .raiseOther => (s, trs, .exc .otherError)
    | .badBody => (s, trs, .exc .valueError)
    | .body data =>
      match pyIndex data "error" with
      | .error e => (s, trs, .exc e)
      | .ok errVal =>
        if errVal.isNull = false then
          match pyIndex errVal "message" with
          | .error e => (s, trs, .exc e)
          | .ok m =>
            let s :=
              if s.connectionErrorReported = false then
                { (logAdd s .err "unable to connect") with
                  connectionErrorReported := true }
              else s
            let s := error_to_strings s (pyStr m)
            let s := release { s with hasConnection := false }
            (s, trs, .ok false)
        else
          match pyIndex data "response" with
          | .error e => (s, trs, .exc e)
          | .ok resp =>
            match pyIndex resp "authenticated" with
            | .error e => (s, trs, .exc e)
            | .ok auth =>
              if truthy auth = false then
                let s := logAdd s .err "authenticated failed"
                let s := error_to_strings s ""
                let s := release { s with hasConnection := false }
                (s, trs, .ok false)
              else
                let s :=
                  if s.connectionErrorReported then
                    { (logAdd s .warn "reconnected") with
                      connectionErrorReported := false }
                  else logAdd s .debug "connected"
                let s := { s with connected := true, reconnected := true }
                let s := release s
                (s, trs, .ok true)
  else (s, trs, .deadlock)

/-- `connection_check()`, lines 56-65. -/
def connection_check (reentrant : Bool) (now : Int) (s : ApiState)
    (trs : List TransportResult) : ApiState × List TransportResult × Res Bool :=
  if s.connected = false ∨ s.hasConnection = false then
    if s.connectionEpoch > now - s.connectionRetrySec then (s, trs, .ok false)
    else
      match connect reentrant now s trs with
      | (s1, trs1, .ok b) =>
        if b = false then (s1, trs1, .ok false) else (s1, trs1, .ok true)
      | r => r
  else (s, trs, .ok true)

/-- Lines 226-227 of `query`: `self.lock.release(); return data["response"]`.
The lock is released before the subscription is evaluated, so a missing
`response` key (or a `None` envelope) raises after the release. -/
def queryReturn (s : ApiState) (trs : List TransportResult) (data : JVal) :
    ApiState × List TransportResult × Res JVal :=
  let s := release s
  match pyIndex data "response" with
  | .error e => (s, trs, .exc e)
  | .ok r => (s, trs, .ok r)

/-- `query(service, method, params=None, options=None)`, lines 178-227,
translated statement by statement.  `fuel` bounds the recursion of line 218
(Python would raise `RecursionError` at its recursion limit; the bound is
never reached in any behaviour proved below).  Note line 218 calls
`self.query(...)` without using its return value, and line 217 calls
`self.connect()` while the lock acquired at line 189 is still held. -/
def query (reentrant : Bool) : Nat → Int → String → String → JVal → JVal →
    ApiState → List TransportResult → ApiState × List TransportResult × Res JVal
  | 0, _, _, _, _, _, s, trs => (s, trs, .exc .recursionError)
  | fuel + 1, now, service, method, params, options, s, trs =>
    match connection_check reentrant now s trs with
    | (s, trs, .ok false) => (s, trs, .ok .null)
    | (s, trs, .exc e) => (s, trs, .exc e)
    | (s, trs, .deadlock) => (s, trs, .deadlock)
    | (s, trs, .ok true) =>
      let params := if truthy params then params else .obj []
      let options :=
        if truthy options then options else .obj [("updatelastaccess", .bool false)]
      if s.lockCount = 0 ∨ reentrant then
        let s := { s with lockCount := s.lockCount + 1 }
        let s := logAdd s .debug "query"
        let s := { s with sent := s.sent ++ [⟨service, method, params, some options⟩] }
        let (tr, trs) := takeTr trs
        match tr with
        | .raiseConn msg =>
          let s := logAdd s .warn "unable to fetch data"
          let s := disconnect "query" (some msg) s
          let s := release s
          (s, trs, .ok .null)
        | .raiseOther => (s, trs, .exc .otherError)
        | .badBody => (s, trs, .exc .valueError)
        | .body data =>
          let s := logAdd s .debug "query response"
          if data.isNull then queryReturn s trs data
          else
            match pyIndex data "error" with
            | .error e => (s, trs, .exc e)
            | .ok errVal =>
              if errVal.isNull then queryReturn s trs data
              else
                match pyIndex errVal "code" with
                | .error e => (s, trs, .exc e)
                | .ok code =>
                  if code.eqNum 5001 || code.eqNum 5002 then
                    let s := logAdd s .debug "session expired"
                    match connect reentrant now s trs with
                    | (s, trs, .deadlock) => (s, trs, .deadlock)
                    | (s, trs, .exc e) => (s, trs, .exc e)
                    | (s, trs, .ok b) =>
                      if b then
                        match query reentrant fuel now service method params options s trs with
                        | (s, trs, .deadlock) => (s, trs, .deadlock)
                        | (s, trs, .exc e) => (s, trs, .exc e)
                        | (s, trs, .ok _) => queryReturn s trs data
                      else queryReturn s trs data
                  else queryReturn s trs data
      else (s, trs, .deadlock)

/-! Concrete example values used by evaluation theorems and witnesses. -/

/-- A freshly constructed instance. -/
def exampleInit : ApiState := initState "omv.local" "admin" "pw" false

/-- An instance holding a live authenticated session. -/
def connectedState : ApiState :=
  { exampleInit with connected := true, hasConnection := true }

/-- Response envelope carrying session-expired error code 5001. -/
def expiredEnv : JVal :=
  .obj [("error", .obj [("code", .num 5001), ("message", .str "Session expired.")]),
        ("response", .null)]

/-- Successful login response envelope. -/
def loginOkEnv : JVal :=
  .obj [("error", .null), ("response", .obj [("authenticated", .bool true)])]

/-- A successful data response envelope. -/
def versionEnv : JVal :=
  .obj [("error", .null), ("response", .obj [("version", .str "5.6")])]

/-- Login-rejected response envelope (spec scenario). -/
def wrongLoginEnv : JVal :=
  .obj [("error", .obj [("code", .num 1),
                        ("message", .str "Incorrect username or password")]),
        ("response", .null)]

/-! Shared invariants and counters. -/

/-- Number of error-level log statements. -/
def errCount (l : List LogEntry) : Nat :=
  (l.filter (fun e => e.level == LogLevel.err)).length

/-- The session invariant: a connected instance holds a transport session. -/
def connInv (s : ApiState) : Bool :=
  !s.connected || s.hasConnection

/-- One public operation on the instance, with the inputs it needs (clock
values and, for the network-using operations, nothing extra: the transport
oracle is threaded separately). -/
inductive Op where
  | connectOp : Int → Op
  | disconnectOp : String → Option String → Op
  | hasReconnectedOp : Op
  | connectionCheckOp : Int → Op
  | queryOp : Nat → Int → String → String → JVal → JVal → Op

/-- Run one public operation, discarding its result and keeping the state
and the remaining transport oracle. -/
def step (reentrant : Bool) :
    ApiState × List TransportResult → Op → ApiState × List TransportResult
  | (s, trs), .connectOp now =>
    let r := connect reentrant now s trs
    (r.1, r.2.1)
  | (s, trs), .disconnectOp loc e => (disconnect loc e s, trs)
  | (s, trs), .hasReconnectedOp => ((has_reconnected s).1, trs)
  | (s, trs), .connectionCheckOp now =>
    let r := connection_check reentrant now s trs
    (r.1, r.2.1)
  | (s, trs), .queryOp fuel now sv m p o =>
    let r := query reentrant fuel now sv m p o s trs
    (r.1, r.2.1)

/-- Run a sequence of public operations. -/
def run (reentrant : Bool) (init : ApiState × List TransportResult)
    (ops : List Op) : ApiState × List TransportResult :=
  ops.foldl (step reentrant) init

/-!  Theorems. -/

/-- Claim C1, evaluated at the failing input: with a live session, a query
whose envelope carries expired code 5001 followed by a successful login and
a good retry response does not behave as claimed.  Under the faithful
non-reentrant lock the code deadlocks (line 217 calls `connect`, which
acquires the lock already held since line 189); and even under a reentrant
lock the retry's result is discarded (line 218 has no `return`), so the
caller receives the original expired envelope's `response` (null) instead
of the retried response `\x7b"version": "5.6"\x7d`. -/
theorem c1_expired_retry_not_transparent :
    (query false 5 1000 "system" "info" .null .null connectedState
      [.body expiredEnv, .body loginOkEnv, .body versionEnv]).2.2 = .deadlock
    ∧ (query true 5 1000 "system" "info" .null .null connectedState
      [.body expiredEnv, .body loginOkEnv, .body versionEnv]).2.2 = .ok .null
    ∧ (query true 5 1000 "system" "info" .null .null connectedState
      [.body expiredEnv, .body loginOkEnv, .body versionEnv]).2.2 ≠
        .ok (.obj [("version", .str "5.6")]) := by
  refine ⟨rfl, rfl, ?_⟩
  intro h
  rw [show (query true 5 1000 "system" "info" .null .null connectedState
      [.body expiredEnv, .body loginOkEnv, .body versionEnv]).2.2 =
      Res.ok .null from rfl] at h
  simp at h

/-- Claim C2, evaluated at the failing input: on a session-expired envelope
the retry path does invoke the lock-acquire operation on the already-held
lock — `query` holds the lock from line 189 when line 217 calls `connect`,
whose line 100 acquires the same non-reentrant lock, blocking forever
(`Res.deadlock` is by construction exactly the outcome of invoking
lock-acquire while `lockCount ≠ 0` on the non-reentrant lock). -/
theorem c2_expired_retry_reacquires_held_lock :
    (query false 5 1000 "system" "info" .null .null connectedState
      [.body expiredEnv]).2.2 = .deadlock := rfl

/-- Claim C3 counterexample: `connect` on a transport exception that is not
a `ConnectionError` propagates the exception to the caller instead of
returning false, refuting the claim that connect never raises for every
input. -/
theorem c3_cex_connect_raises_on_other_transport_error :
    (connect false 100 exampleInit [.raiseOther]).2.2 = .exc .otherError := rfl

/-- Claim C4 counterexample: two consecutive failed `connect()` calls that
both fail at transport level log the error twice, refuting the claim that
the error is logged exactly once per failure streak (the `ConnectionError`
handler at lines 137-144 logs unconditionally). -/
theorem c4_cex_two_transport_failures_log_twice :
    errCount (connect false 200 (connect false 100 exampleInit
      [.raiseConn "refused"]).1 [.raiseConn "refused"]).1.log = 2 := rfl

/-! Projection lemmas for the small state helpers, so that goals about one
field reduce without unfolding whole states. -/

@[simp] theorem release_connected (s : ApiState) :
    (release s).connected = s.connected := rfl

@[simp] theorem release_hasConnection (s : ApiState) :
    (release s).hasConnection = s.hasConnection := rfl

@[simp] theorem release_reconnected (s : ApiState) :
    (release s).reconnected = s.reconnected := rfl

@[simp] theorem release_error (s : ApiState) :
    (release s).error = s.error := rfl

@[simp] theorem release_log (s : ApiState) :
    (release s).log = s.log := rfl

@[simp] theorem release_sent (s : ApiState) :
    (release s).sent = s.sent := rfl

@[simp] theorem release_reported (s : ApiState) :
    (release s).connectionErrorReported = s.connectionErrorReported := rfl

@[simp] theorem logAdd_connected (s : ApiState) (lv : LogLevel) (tag : String) :
    (logAdd s lv tag).connected = s.connected := rfl

@[simp] theorem logAdd_hasConnection (s : ApiState) (lv : LogLevel) (tag : String) :
    (logAdd s lv tag).hasConnection = s.hasConnection := rfl

@[simp] theorem logAdd_reconnected (s : ApiState) (lv : LogLevel) (tag : String) :
    (logAdd s lv tag).reconnected = s.reconnected := rfl

@[simp] theorem logAdd_error (s : ApiState) (lv : LogLevel) (tag : String) :
    (logAdd s lv tag).error = s.error := rfl

@[simp] theorem logAdd_log (s : ApiState) (lv : LogLevel) (tag : String) :
    (logAdd s lv tag).log = s.log ++ [⟨lv, tag⟩] := rfl

@[simp] theorem logAdd_sent (s : ApiState) (lv : LogLevel) (tag : String) :
    (logAdd s lv tag).sent = s.sent := rfl

@[simp] theorem logAdd_reported (s : ApiState) (lv : LogLevel) (tag : String) :
    (logAdd s lv tag).connectionErrorReported = s.connectionErrorReported := rfl

@[simp] theorem ets_connected (s : ApiState) (e : String) :
    (error_to_strings s e).connected = s.connected := by
  unfold error_to_strings; split <;> rfl

@[simp] theorem ets_hasConnection (s : ApiState) (e : String) :
    (error_to_strings s e).hasConnection = s.hasConnection := by
  unfold error_to_strings; split <;> rfl

@[simp] theorem ets_reconnected (s : ApiState) (e : String) :
    (error_to_strings s e).reconnected = s.reconnected := by
  unfold error_to_strings; split <;> rfl

@[simp] theorem ets_log (s : ApiState) (e : String) :
    (error_to_strings s e).log = s.log := by
  unfold error_to_strings; split <;> rfl

@[simp] theorem ets_sent (s : ApiState) (e : String) :
    (error_to_strings s e).sent = s.sent := by
  unfold error_to_strings; split <;> rfl

@[simp] theorem ets_reported (s : ApiState) (e : String) :
    (error_to_strings s e).connectionErrorReported = s.connectionErrorReported := by
  unfold error_to_strings; split <;> rfl

@[simp] theorem ets_error (s : ApiState) (e : String) :
    (error_to_strings s e).error =
      some (if e = "Incorrect username or password" then "wrong_login"
            else "cannot_connect") := by
  unfold error_to_strings; split <;> simp_all

@[simp] theorem disconnect_connected (l : String) (e : Option String) (s : ApiState) :
    (disconnect l e s).connected = false := rfl

@[simp] theorem disconnect_hasConnection (l : String) (e : Option String)
    (s : ApiState) : (disconnect l e s).hasConnection = false := rfl

@[simp] theorem disconnect_reconnected (l : String) (e : Option String)
    (s : ApiState) : (disconnect l e s).reconnected = false := rfl

@[simp] theorem disconnect_epoch (l : String) (e : Option String) (s : ApiState) :
    (disconnect l e s).connectionEpoch = 0 := rfl

@[simp] theorem disconnect_reported (l : String) (e : Option String) (s : ApiState) :
    (disconnect l e s).connectionErrorReported = true := by
  cases hr : s.connectionErrorReported <;> simp [disconnect, hr]

@[simp] theorem disconnect_sent (l : String) (e : Option String) (s : ApiState) :
    (disconnect l e s).sent = s.sent := by
  cases hr : s.connectionErrorReported <;> simp [disconnect, hr]
  split <;> simp

@[simp] theorem errCount_append (l l2 : List LogEntry) :
    errCount (l ++ l2) = errCount l + errCount l2 := by
  simp [errCount, List.filter_append]

@[simp] theorem errCount_single_err (t : String) :
    errCount [⟨LogLevel.err, t⟩] = 1 := rfl

@[simp] theorem errCount_single_warn (t : String) :
    errCount [⟨LogLevel.warn, t⟩] = 0 := rfl

@[simp] theorem errCount_single_debug (t : String) :
    errCount [⟨LogLevel.debug, t⟩] = 0 := rfl

@[simp] theorem errCount_nil : errCount [] = 0 := rfl

/-- A connected instance with a session makes `connection_check` succeed
immediately with no state change and no transport use. -/
theorem connection_check_connected (re : Bool) (now : Int) (s : ApiState)
    (trs : List TransportResult) (hc : s.connected = true)
    (hh : s.hasConnection = true) :
    connection_check re now s trs = (s, trs, .ok true) := by
  unfold connection_check
  rw [if_neg]
  simp [hc, hh]

/-- Every exit of `connect` satisfies the session invariant. -/
theorem connect_connInv (re : Bool) (now : Int) (s : ApiState)
    (trs : List TransportResult) :
    connInv (connect re now s trs).1 = true := by
  simp only [connect]
  repeat' split
  all_goals simp [connInv]

/-- `connection_check` preserves the session invariant. -/
theorem connection_check_connInv (re : Bool) (now : Int) (s : ApiState)
    (trs : List TransportResult) (h : connInv s = true) :
    connInv (connection_check re now s trs).1 = true := by
  unfold connection_check
  split
  · split
    · simpa using h
    · split
      · rename_i s1 trs1 b heq
        have hc := connect_connInv re now s trs
        rw [heq] at hc
        split <;> simpa using hc
      · exact connect_connInv re now s trs
  · simpa using h

/-- A `connect` that returns true has set `connected`, `reconnected` and the
session, and cleared the error-reported flag. -/
theorem connect_ok_true (re : Bool) (now : Int) (s : ApiState)
    (trs : List TransportResult)
    (h : (connect re now s trs).2.2 = .ok true) :
    (connect re now s trs).1.connected = true
    ∧ (connect re now s trs).1.reconnected = true
    ∧ (connect re now s trs).1.hasConnection = true
    ∧ (connect re now s trs).1.connectionErrorReported = false := by
  simp only [connect] at h ⊢
  repeat' split at h
  all_goals simp_all

/-- A `connect` that does not return true leaves `reconnected` unchanged and
`connected` false. -/
theorem connect_not_ok_true (re : Bool) (now : Int) (s : ApiState)
    (trs : List TransportResult)
    (h : (connect re now s trs).2.2 ≠ .ok true) :
    (connect re now s trs).1.reconnected = s.reconnected
    ∧ (connect re now s trs).1.connected = false := by
  simp only [connect] at h ⊢
  repeat' split at h
  all_goals simp_all

/-- Claim C5: if `connection_check` runs while not connected (or without a
session) and strictly less than 58 seconds have elapsed since the last
connect attempt, it returns false with no state change, no call to
`connect` and no transport call (the state, including `sent`, and the
transport oracle are returned untouched); if connected with a live session
it returns true immediately with no network call; otherwise it calls
`connect()` and returns exactly its result. -/
theorem c5_connection_check_branches (re : Bool) (now : Int) (s : ApiState)
    (trs : List TransportResult) (h58 : s.connectionRetrySec = 58) :
    ((s.connected = false ∨ s.hasConnection = false) →
      now - s.connectionEpoch < 58 →
      connection_check re now s trs = (s, trs, .ok false))
    ∧ (s.connected = true → s.hasConnection = true →
      connection_check re now s trs = (s, trs, .ok true))
    ∧ ((s.connected = false ∨ s.hasConnection = false) →
      58 ≤ now - s.connectionEpoch →
      connection_check re now s trs = connect re now s trs) := by
  refine ⟨?_, ?_, ?_⟩
  · intro h hlt
    unfold connection_check
    rw [if_pos h, if_pos (by omega)]
  · intro hc hh
    exact connection_check_connected re now s trs hc hh
  · intro h hge
    unfold connection_check
    rw [if_pos h, if_neg (by omega)]
    rcases hconn : connect re now s trs with ⟨s1, trs1, r⟩
    cases r with
    | ok b => cases b <;> simp
    | exc e => rfl
    | deadlock => rfl

/-- Witness for C5 at a concrete cooldown input: a fresh instance checked at
time 30 (less than 58 seconds after the initial attempt time 0) is refused
without any transport call. -/
theorem c5_witness :
    connection_check false 30 exampleInit [] = (exampleInit, [], .ok false) :=
  (c5_connection_check_branches false 30 exampleInit [] rfl).1 (Or.inl rfl) (by decide)

/-- Claim C6: a successful `connect` sets the reconnected flag; an
unsuccessful one leaves it unchanged; `has_reconnected` consumes it (true
exactly once, false on the next read and whenever the flag is clear); and
`disconnect` clears it. -/
theorem c6_reconnected_flag_protocol (re : Bool) (now : Int) (s : ApiState)
    (trs : List TransportResult) (loc : String) (e : Option String) :
    ((connect re now s trs).2.2 = .ok true →
        (connect re now s trs).1.reconnected = true)
    ∧ ((connect re now s trs).2.2 ≠ .ok true →
        (connect re now s trs).1.reconnected = s.reconnected)
    ∧ (s.reconnected = true →
        has_reconnected s = ({ s with reconnected := false }, true))
    ∧ (s.reconnected = false → has_reconnected s = (s, false))
    ∧ (has_reconnected (has_reconnected s).1).2 = false
    ∧ (disconnect loc e s).reconnected = false := by
  refine ⟨?_, ?_, ?_, ?_, ?_, ?_⟩
  · intro h
    exact (connect_ok_true re now s trs h).2.1
  · intro h
    exact (connect_not_ok_true re now s trs h).1
  · intro h
    simp [has_reconnected, h]
  · intro h
    simp [has_reconnected, h]
  · cases hr : s.reconnected <;> simp [has_reconnected, hr]
  · simp

/-- Witness for C6 at concrete inputs: a successful login sets the flag, and
a set flag is consumed by one read. -/
theorem c6_witness :
    (connect false 100 exampleInit [.body loginOkEnv]).1.reconnected = true
    ∧ has_reconnected { exampleInit with reconnected := true } =
        ({ { exampleInit with reconnected := true } with reconnected := false },
         true) := by
  refine ⟨?_, ?_⟩
  · exact (c6_reconnected_flag_protocol false 100 exampleInit
      [.body loginOkEnv] "unknown" none).1 rfl
  · exact (c6_reconnected_flag_protocol false 100
      { exampleInit with reconnected := true } [] "unknown" none).2.2.1 rfl

/-- Claim C7: a login response envelope with a non-null error makes
`connect` return false, discard the session, and classify `lastErrorKind`
by the message text (equal to the fixed literal gives wrong_login, anything
else cannot_connect); an `authenticated == false` response likewise returns
false with cannot_connect. -/
theorem c7_connect_error_classification (re : Bool) (now : Int) (s : ApiState)
    (trs : List TransportResult) (hlock : s.lockCount = 0 ∨ re = true)
    (code : JVal) (msg : String) (resp auth : JVal)
    (hauth : truthy auth = false) :
    ((connect re now s
        (.body (.obj [("error", .obj [("code", code), ("message", .str msg)]),
                      ("response", resp)]) :: trs)).2.2 = .ok false
      ∧ (connect re now s
          (.body (.obj [("error", .obj [("code", code), ("message", .str msg)]),
                        ("response", resp)]) :: trs)).1.hasConnection = false
      ∧ (connect re now s
          (.body (.obj [("error", .obj [("code", code), ("message", .str msg)]),
                        ("response", resp)]) :: trs)).1.error =
          some (if msg = "Incorrect username or password" then "wrong_login"
                else "cannot_connect"))
    ∧ ((connect re now s
        (.body (.obj [("error", .null),
                      ("response", .obj [("authenticated", auth)])]) :: trs)).2.2 =
          .ok false
      ∧ (connect re now s
          (.body (.obj [("error", .null),
                        ("response", .obj [("authenticated", auth)])]) :: trs)).1.hasConnection =
          false
      ∧ (connect re now s
          (.body (.obj [("error", .null),
                        ("response", .obj [("authenticated", auth)])]) :: trs)).1.error =
          some "cannot_connect") := by
  cases hrep : s.connectionErrorReported <;>
    simp [connect, takeTr, pyIndex, hlock, hrep, hauth, pyStr, JVal.isNull, List.lookup]

/-- Witness for C7 at the spec scenario input: a login rejected with the
fixed message yields false and wrong_login. -/
theorem c7_witness :
    (connect false 100 exampleInit [.body wrongLoginEnv]).2.2 = .ok false
    ∧ (connect false 100 exampleInit [.body wrongLoginEnv]).1.error =
        some "wrong_login" := by
  have h := c7_connect_error_classification false 100 exampleInit [] (Or.inl rfl)
    (.num 1) "Incorrect username or password" .null .null rfl
  exact ⟨h.1.1, by simpa using h.1.2.2⟩

/-- Claim C8: after every `disconnect`, regardless of arguments and prior
state, the instance is disconnected, holds no session, has a clear
reconnected flag, and has a zero connect-attempt time (so the cooldown does
not block the next attempt). -/
theorem c8_disconnect_resets_state (location : String) (error : Option String)
    (s : ApiState) :
    (disconnect location error s).connected = false
    ∧ (disconnect location error s).hasConnection = false
    ∧ (disconnect location error s).reconnected = false
    ∧ (disconnect location error s).connectionEpoch = 0 :=
  ⟨rfl, rfl, rfl, rfl⟩

/-- Claim C3 amended: `connect` and `query` return false/null without
raising when the transport failure is a `ConnectionError` (recording
`lastErrorKind`), but — contrary to the claim — a non-connection transport
exception, an invalid-JSON body, a null envelope, or an envelope lacking
the accessed keys propagates an exception to the caller (and, for the paths
inside `connect`, leaves the mutex held). -/
theorem c3_amended_exception_behavior (re : Bool) (now : Int) (s : ApiState)
    (trs : List TransportResult) (msg : String)
    (hlock : s.lockCount = 0 ∨ re = true) :
    ((connect re now s (.raiseConn msg :: trs)).2.2 = .ok false
      ∧ (connect re now s (.raiseConn msg :: trs)).1.error =
          some (if msg = "Incorrect username or password" then "wrong_login"
                else "cannot_connect"))
    ∧ (s.connected = true → s.hasConnection = true →
        ∀ fuel sv m p o, (query re (fuel + 1) now sv m p o s
          (.raiseConn msg :: trs)).2.2 = .ok .null)
    ∧ (connect re now s (.raiseOther :: trs)).2.2 = .exc .otherError
    ∧ (connect re now s (.badBody :: trs)).2.2 = .exc .valueError
    ∧ (connect re now s (.body .null :: trs)).2.2 = .exc .typeError
    ∧ (connect re now s (.body (.obj []) :: trs)).2.2 = .exc .keyError
    ∧ (connect re now s (.raiseOther :: trs)).1.lockCount = s.lockCount + 1
    ∧ (s.connected = true → s.hasConnection = true →
        ∀ fuel sv m p o, (query re (fuel + 1) now sv m p o s
          (.body .null :: trs)).2.2 = .exc .typeError)
    ∧ (s.connected = true → s.hasConnection = true →
        ∀ fuel sv m p o, (query re (fuel + 1) now sv m p o s
          (.body (.obj [("error", .null)]) :: trs)).2.2 = .exc .keyError) := by
  refine ⟨⟨?_, ?_⟩, ?_, ?_, ?_, ?_, ?_, ?_, ?_, ?_⟩
  · simp [connect, takeTr, hlock]
  · simp [connect, takeTr, hlock]
  · intro hc hh fuel sv m p o
    simp [query, connection_check_connected re now s (.raiseConn msg :: trs) hc hh,
      takeTr, hlock]
  · simp [connect, takeTr, hlock]
  · simp [connect, takeTr, hlock]
  · simp [connect, takeTr, hlock, pyIndex]
  · simp [connect, takeTr, hlock, pyIndex]
  · simp [connect, takeTr, hlock]
  · intro hc hh fuel sv m p o
    simp [query, connection_check_connected re now s (.body .null :: trs) hc hh,
      takeTr, hlock, queryReturn, pyIndex, JVal.isNull]
  · intro hc hh fuel sv m p o
    simp [query,
      connection_check_connected re now s (.body (.obj [("error", .null)]) :: trs) hc hh,
      takeTr, hlock, queryReturn, pyIndex, JVal.isNull, List.lookup]

/-- Witness for C3 amended at concrete inputs: a transport `ConnectionError`
during `connect` is converted to a false return with `cannot_connect`. -/
theorem c3_amended_witness :
    (connect false 100 exampleInit [.raiseConn "refused"]).2.2 = .ok false
    ∧ (connect false 100 exampleInit [.raiseConn "refused"]).1.error =
        some "cannot_connect" := by
  have h := c3_amended_exception_behavior false 100 exampleInit [] "refused"
    (Or.inl rfl)
  exact ⟨h.1.1, by simpa using h.1.2⟩

/-- Claim C4 amended: of `connect`'s three failure paths only the
envelope-error path is rate-limited by `errorAlreadyReported`
(transport-level failures and `authenticated == false` responses are logged
on every occurrence); a successful `connect` clears the flag, while
`disconnect` logs at most once and then sets — not clears — the flag. -/
theorem c4_amended_logging_per_path (re : Bool) (now : Int) (s : ApiState)
    (trs : List TransportResult) (msg : String) (code : JVal) (resp auth : JVal)
    (hauth : truthy auth = false)
    (hlock : s.lockCount = 0 ∨ re = true) :
    (errCount (connect re now s (.raiseConn msg :: trs)).1.log
        = errCount s.log + 1
      ∧ (connect re now s (.raiseConn msg :: trs)).1.connectionErrorReported
        = s.connectionErrorReported)
    ∧ ((s.connectionErrorReported = true →
        errCount (connect re now s
          (.body (.obj [("error", .obj [("code", code), ("message", .str msg)]),
                        ("response", resp)]) :: trs)).1.log = errCount s.log
        ∧ (connect re now s
            (.body (.obj [("error", .obj [("code", code), ("message", .str msg)]),
                          ("response", resp)]) :: trs)).1.connectionErrorReported =
            true)
      ∧ (s.connectionErrorReported = false →
        errCount (connect re now s
          (.body (.obj [("error", .obj [("code", code), ("message", .str msg)]),
                        ("response", resp)]) :: trs)).1.log = errCount s.log + 1
        ∧ (connect re now s
            (.body (.obj [("error", .obj [("code", code), ("message", .str msg)]),
                          ("response", resp)]) :: trs)).1.connectionErrorReported =
            true))
    ∧ (errCount (connect re now s
        (.body (.obj [("error", .null),
                      ("response", .obj [("authenticated", auth)])]) :: trs)).1.log =
          errCount s.log + 1
      ∧ (connect re now s
          (.body (.obj [("error", .null),
                        ("response", .obj [("authenticated", auth)])]) :: trs)).1.connectionErrorReported =
          s.connectionErrorReported)
    ∧ (connect re now s
        (.body (.obj [("error", .null),
                      ("response", .obj [("authenticated", .bool true)])]) :: trs)).1.connectionErrorReported =
        false
    ∧ (∀ loc e, (s.connectionErrorReported = true →
          errCount (disconnect loc e s).log = errCount s.log)
        ∧ (s.connectionErrorReported = false →
          errCount (disconnect loc e s).log = errCount s.log + 1)
        ∧ (disconnect loc e s).connectionErrorReported = true) := by
  refine ⟨⟨?_, ?_⟩, ⟨?_, ?_⟩, ⟨?_, ?_⟩, ?_, ?_⟩
  · simp [connect, takeTr, hlock]
  · simp [connect, takeTr, hlock]
  · intro hrep
    simp [connect, takeTr, hlock, hrep, pyIndex, JVal.isNull, pyStr, List.lookup]
  · intro hrep
    simp [connect, takeTr, hlock, hrep, pyIndex, JVal.isNull, pyStr, List.lookup]
  · cases hrep : s.connectionErrorReported <;>
      simp [connect, takeTr, hlock, hrep, pyIndex, hauth, JVal.isNull, List.lookup]
  · cases hrep : s.connectionErrorReported <;>
      simp [connect, takeTr, hlock, hrep, pyIndex, hauth, JVal.isNull, List.lookup]
  · cases hrep : s.connectionErrorReported <;>
      simp [connect, takeTr, hlock, hrep, pyIndex, JVal.isNull, List.lookup, truthy]
  · intro loc e
    refine ⟨?_, ?_, by simp⟩
    · intro hrep
      simp [disconnect, hrep]
    · intro hrep
      simp [disconnect, hrep]
      split <;> simp

/-- Witness for C4 amended at a concrete input: one transport-failed
`connect` on a fresh instance logs exactly one error and leaves the
suppression flag clear. -/
theorem c4_amended_witness :
    errCount (connect false 100 exampleInit [.raiseConn "refused"]).1.log = 1
    ∧ (connect false 100 exampleInit
        [.raiseConn "refused"]).1.connectionErrorReported = false := by
  have h := c4_amended_logging_per_path false 100 exampleInit [] "refused"
    (.num 1) .null .null rfl (Or.inl rfl)
  exact ⟨by simpa using h.1.1, by simpa using h.1.2⟩

@[simp] theorem isNull_null : JVal.isNull .null = true := rfl

@[simp] theorem isNull_bool (b : Bool) : JVal.isNull (.bool b) = false := rfl

@[simp] theorem isNull_num (n : Int) : JVal.isNull (.num n) = false := rfl

@[simp] theorem isNull_str (t : String) : JVal.isNull (.str t) = false := rfl

@[simp] theorem isNull_obj (fs : List (String × JVal)) :
    JVal.isNull (.obj fs) = false := rfl

@[simp] theorem isNull_arr (xs : List JVal) : JVal.isNull (.arr xs) = false := rfl

@[simp] theorem pyIndex_null (k : String) :
    pyIndex .null k = .error .typeError := rfl

@[simp] theorem pyIndex_bool (b : Bool) (k : String) :
    pyIndex (.bool b) k = .error .typeError := rfl

@[simp] theorem pyIndex_num (n : Int) (k : String) :
    pyIndex (.num n) k = .error .typeError := rfl

@[simp] theorem pyIndex_str (t k : String) :
    pyIndex (.str t) k = .error .typeError := rfl

@[simp] theorem pyIndex_arr (xs : List JVal) (k : String) :
    pyIndex (.arr xs) k = .error .typeError := rfl

theorem pyIndex_obj (fs : List (String × JVal)) (k : String) :
    pyIndex (.obj fs) k =
      (match fs.lookup k with
       | some v => .ok v
       | none => .error .keyError) := rfl

/-- `queryReturn` (release then read the response field) preserves the
session invariant. -/
theorem queryReturn_connInv (s : ApiState) (trs : List TransportResult)
    (data : JVal) (h : connInv s = true) :
    connInv (queryReturn s trs data).1 = true := by
  unfold queryReturn
  split <;> simpa [connInv] using h

/-- Transfer `connect_connInv` through an equation produced by case
splitting. -/
theorem connect_eq_connInv {re : Bool} {now : Int} {x : ApiState}
    {y : List TransportResult} {s3 : ApiState} {trs3 : List TransportResult}
    {r : Res Bool} (heq : connect re now x y = (s3, trs3, r)) :
    connInv s3 = true := by
  have h := connect_connInv re now x y
  rw [heq] at h
  exact h

/-- `query` preserves the session invariant, for every fuel bound. -/
theorem query_connInv (re : Bool) (fuel : Nat) :
    ∀ (now : Int) (sv m : String) (p o : JVal) (s : ApiState)
      (trs : List TransportResult), connInv s = true →
      connInv (query re fuel now sv m p o s trs).1 = true := by
  induction fuel with
  | zero =>
    intro now sv m p o s trs h
    simpa [query] using h
  | succ n ih =>
    intro now sv m p o s trs h
    rcases hcc : connection_check re now s trs with ⟨s1, trs1, r1⟩
    have h1 : connInv s1 = true := by
      have hx := connection_check_connInv re now s trs h
      rw [hcc] at hx
      exact hx
    cases r1 with
    | exc e => simpa [query, hcc] using h1
    | deadlock => simpa [query, hcc] using h1
    | ok b =>
      cases b with
      | false => simpa [query, hcc] using h1
      | true =>
        simp only [query, hcc]
        generalize (if truthy p then p else JVal.obj []) = pn
        generalize (if truthy o then o
          else JVal.obj [("updatelastaccess", JVal.bool false)]) = on1
        by_cases hlk : s1.lockCount = 0 ∨ re = true
        · rw [if_pos hlk]
          rcases htk : takeTr trs1 with ⟨tr, trs2⟩
          simp only [htk]
          rcases tr with msg | _ | _ | data
          · simp [connInv]
          · simpa [connInv] using h1
          · simpa [connInv] using h1
          · dsimp only
            rcases data with _ | bv | nv | st | fs | xs
            · rw [if_pos (show JVal.isNull .null = true from rfl)]
              exact queryReturn_connInv _ _ _ (by simpa [connInv] using h1)
            · simpa [connInv] using h1
            · simpa [connInv] using h1
            · simpa [connInv] using h1
            · rw [if_neg (show ¬ JVal.isNull (.obj fs) = true by simp)]
              simp only [pyIndex_obj]
              rcases hlu : List.lookup "error" fs with _ | errVal
              · simpa [hlu, connInv] using h1
              · simp only [hlu]
                by_cases hne : errVal.isNull = true
                · rw [if_pos hne]
                  exact queryReturn_connInv _ _ _ (by simpa [connInv] using h1)
                · rw [if_neg hne]
                  rcases errVal with _ | eb | en | es | efs | exs
                  · exact absurd rfl hne
                  · simpa [connInv] using h1
                  · simpa [connInv] using h1
                  · simpa [connInv] using h1
                  · simp only [pyIndex_obj]
                    rcases hlc : List.lookup "code" efs with _ | code
                    · simpa [hlc, connInv] using h1
                    · simp only [hlc]
                      by_cases hcode : (code.eqNum 5001 || code.eqNum 5002) = true
                      · rw [if_pos hcode]
                        split
                        · rename_i s3 trs3 heq
                          exact connect_eq_connInv heq
                        · rename_i s3 trs3 e heq
                          exact connect_eq_connInv heq
                        · rename_i s3 trs3 b2 heq
                          have h3 := connect_eq_connInv heq
                          cases b2 with
                          | false =>
                            simp only [if_false, Bool.false_eq_true]
                            exact queryReturn_connInv _ _ _ h3
                          | true =>
                            simp only [if_true]
                            split
                            · rename_i s4 trs4 heq2
                              have h4 := ih now sv m pn on1 s3 trs3 h3
                              rw [heq2] at h4
                              exact h4
                            · rename_i s4 trs4 e2 heq2
                              have h4 := ih now sv m pn on1 s3 trs3 h3
                              rw [heq2] at h4
                              exact h4
                            · rename_i s4 trs4 v4 heq2
                              have h4 := ih now sv m pn on1 s3 trs3 h3
                              rw [heq2] at h4
                              exact queryReturn_connInv _ _ _ h4
                      · rw [if_neg hcode]
                        exact queryReturn_connInv _ _ _ (by simpa [connInv] using h1)
                  · simpa [connInv] using h1
            · simpa [connInv] using h1
        · rw [if_neg hlk]
          simpa using h1

@[simp] theorem queryReturn_sent (s : ApiState) (trs : List TransportResult)
    (data : JVal) : (queryReturn s trs data).1.sent = s.sent := by
  unfold queryReturn
  split <;> simp

@[simp] theorem logAdd_lockCount (s : ApiState) (lv : LogLevel) (tag : String) :
    (logAdd s lv tag).lockCount = s.lockCount := rfl

@[simp] theorem release_lockCount (s : ApiState) :
    (release s).lockCount = s.lockCount - 1 := rfl

@[simp] theorem ets_lockCount (s : ApiState) (e : String) :
    (error_to_strings s e).lockCount = s.lockCount := by
  unfold error_to_strings; split <;> rfl

@[simp] theorem disconnect_lockCount (l : String) (e : Option String)
    (s : ApiState) : (disconnect l e s).lockCount = s.lockCount := by
  cases hr : s.connectionErrorReported <;> simp [disconnect, hr]
  split <;> simp

/-- Claim C9: the invariant that a connected instance holds a non-null
transport session holds after construction and is preserved by every public
operation (connect, disconnect, has_reconnected, connection_check, query);
moreover `connect` leaves `connected` false on every exit other than a
successful login exchange. -/
theorem c9_connected_implies_session (re : Bool) :
    (∀ h u p ssl, connInv (initState h u p ssl) = true)
    ∧ (∀ (s : ApiState) (trs : List TransportResult) (op : Op),
        connInv s = true → connInv (step re (s, trs) op).1 = true)
    ∧ (∀ (now : Int) (s : ApiState) (trs : List TransportResult),
        (connect re now s trs).2.2 ≠ .ok true →
        (connect re now s trs).1.connected = false) := by
  refine ⟨?_, ?_, ?_⟩
  · intro h u p ssl
    rfl
  · intro s trs op hs
    cases op with
    | connectOp now =>
      simpa [step] using connect_connInv re now s trs
    | disconnectOp loc e =>
      simp [step, connInv]
    | hasReconnectedOp =>
      cases hr : s.reconnected <;> simp_all [step, has_reconnected, connInv]
    | connectionCheckOp now =>
      simpa [step] using connection_check_connInv re now s trs hs
    | queryOp fuel now sv m pr oo =>
      simpa [step] using query_connInv re fuel now sv m pr oo s trs hs
  · intro now s trs h
    exact (connect_not_ok_true re now s trs h).2

/-- Witness for C9 at a concrete input: the invariant holds after running a
connect operation on a fresh instance. -/
theorem c9_witness :
    connInv (step false (exampleInit, [.body loginOkEnv]) (.connectOp 100)).1 =
      true :=
  (c9_connected_implies_session false).2.1 exampleInit [.body loginOkEnv]
    (.connectOp 100) rfl

/-- Claim C10: when `query` reaches its POST, a falsy `params` argument
(null or the empty mapping) has been replaced by the empty object and a
falsy `options` argument by the lowercase `updatelastaccess = false`
object; in particular `JVal.null` and the explicitly passed empty mapping
are both falsy, so an empty options mapping is never sent as-is. -/
theorem c10_query_normalizes_params (fuel : Nat) (now : Int) (sv m : String)
    (p o : JVal) (s : ApiState) (trs : List TransportResult)
    (hc : s.connected = true) (hh : s.hasConnection = true)
    (hl : s.lockCount = 0) :
    (query false (fuel + 1) now sv m p o s trs).1.sent =
      s.sent ++ [⟨sv, m, if truthy p then p else .obj [],
        some (if truthy o then o
              else .obj [("updatelastaccess", .bool false)])⟩]
    ∧ truthy .null = false ∧ truthy (.obj []) = false := by
  refine ⟨?_, rfl, rfl⟩
  have hcc := connection_check_connected false now s trs hc hh
  simp only [query, hcc]
  rw [if_pos (Or.inl hl)]
  generalize (if truthy p then p else JVal.obj []) = pn
  generalize (if truthy o then o
    else JVal.obj [("updatelastaccess", JVal.bool false)]) = on1
  rcases htk : takeTr trs with ⟨tr, trs2⟩
  simp only [htk]
  rcases tr with msg | _ | _ | data
  · simp
  · simp
  · simp
  · dsimp only
    rcases data with _ | bv | nv | st | fs | xs
    · rw [if_pos (show JVal.isNull .null = true from rfl)]
      simp
    · simp
    · simp
    · simp
    · rw [if_neg (show ¬ JVal.isNull (.obj fs) = true by simp)]
      simp only [pyIndex_obj]
      rcases hlu : List.lookup "error" fs with _ | errVal
      · simp [hlu]
      · simp only [hlu]
        by_cases hne : errVal.isNull = true
        · rw [if_pos hne]
          simp
        · rw [if_neg hne]
          rcases errVal with _ | eb | en | es | efs | exs
          · exact absurd rfl hne
          · simp
          · simp
          · simp
          · simp only [pyIndex_obj]
            rcases hlc : List.lookup "code" efs with _ | code
            · simp [hlc]
            · simp only [hlc]
              by_cases hcode : (code.eqNum 5001 || code.eqNum 5002) = true
              · rw [if_pos hcode]
                simp [connect, hl]
              · rw [if_neg hcode]
                simp
          · simp
    · simp

/-- Witness for C10 at a concrete input: a query called with null params and
an explicitly empty options mapping sends the defaulted request body. -/
theorem c10_witness :
    (query false 5 1000 "system" "info" .null (.obj []) connectedState
      [.body versionEnv]).1.sent =
      [⟨"system", "info", .obj [],
        some (.obj [("updatelastaccess", .bool false)])⟩] := by
  have h := c10_query_normalizes_params 4 1000 "system" "info" .null (.obj [])
    connectedState [.body versionEnv] rfl rfl rfl
  simpa [connectedState, exampleInit, initState, truthy] using h.1

end OMV
